import Mathlib

/-!
Verification of the server-side Publish Engine of node-opcua.

The repository ships the behavioural test-suite of `ServerSidePublishEngine`
and `Subscription` (packages/node-opcua-address-space, tests ZDZ-3 .. ZDZ-J);
the engine implementation itself is not part of the sources at hand, so the
definitions below are modelled from the specification (spec.md §3–§6), and the
test-suite is used to cross-check concrete scenarios.
-/

namespace OpcUa

/-- Modelled from the spec: subscription publishing states
(spec §3, `state ∈ {CREATING, NORMAL, LATE, KEEPALIVE, CLOSED}`). -/
inductive SubscriptionState where
  | CREATING
  | NORMAL
  | LATE
  | KEEPALIVE
  | CLOSED
deriving DecidableEq, Repr

/-- Modelled from the spec: the status codes surfaced by the publish engine
(spec §6, "Status codes surfaced"). -/
inductive StatusCode where
  | Good
  | BadNoSubscription
  | BadTooManyPublishRequests
  | BadTimeout
  | BadSequenceNumberUnknown
  | BadSubscriptionIdInvalid
  | BadSessionClosed
deriving DecidableEq, Repr

/-- Modelled from the spec: a NotificationData element of a NotificationMessage.
Either harvested monitored-item data (abstracted to the harvested count) or a
StatusChangeNotification carrying a status code (spec §4.5, glossary). -/
inductive NotificationData where
  | dataChange (notificationCount : Nat)
  | statusChange (status : StatusCode)
deriving DecidableEq, Repr

/-- Modelled from the spec: NotificationMessage
(spec §6, `notificationMessage { sequenceNumber, publishTime, notificationData[] }`;
`publishTime` is not tracked, no claim concerns it). -/
structure NotificationMessage where
  sequenceNumber : Nat
  notificationData : List NotificationData
deriving DecidableEq, Repr

/-- Modelled from the spec: one element of `subscriptionAcknowledgements`
(spec §4.3). -/
structure SubscriptionAcknowledgement where
  subscriptionId : Nat
  sequenceNumber : Nat
deriving DecidableEq, Repr

/-- Modelled from the spec: a decoded PublishRequest — request handle,
timeout hint (0 ⇒ no timeout) and acknowledgements (spec §3, §4.3). -/
structure PublishRequest where
  requestHandle : Nat
  timeoutHint : Nat
  subscriptionAcknowledgements : List SubscriptionAcknowledgement
deriving DecidableEq, Repr

/-- Modelled from the spec: PublishRequestQueue entry — the decoded request
plus its arrival timestamp (spec §3, "PublishRequestQueue entry"). -/
structure QueuedRequest where
  request : PublishRequest
  arrivalTime : Nat
deriving DecidableEq, Repr

/-- Modelled from the spec: the PublishResponse wire shape (spec §4.2, §6). -/
structure PublishResponse where
  subscriptionId : Nat
  availableSequenceNumbers : List Nat
  notificationMessage : NotificationMessage
  moreNotifications : Bool
  results : List StatusCode
  requestHandle : Nat
  serviceResult : StatusCode
deriving DecidableEq, Repr

/-- Modelled from the spec: everything the engine hands back to the transport —
either a PublishResponse or a bare ServiceFault (spec §6). -/
inductive Response where
  | publish (r : PublishResponse)
  | serviceFault (serviceResult : StatusCode) (requestHandle : Nat)
deriving DecidableEq, Repr

/-- The (serviceResult, requestHandle) summary of a response, used to state
which request was answered with which status. -/
def Response.summary : Response → StatusCode × Nat
  | .publish r => (r.serviceResult, r.requestHandle)
  | .serviceFault sr h => (sr, h)

/-- Modelled from the spec: Subscription essential attributes (spec §3).
`sentNotifications` is the retransmission queue, an ordered mapping
`seq → NotificationMessage` kept as an association list; `pendingNotifications`
abstracts the monitored items as the number of notifications currently
reported pending. -/
structure Subscription where
  id : Nat
  publishingInterval : Nat
  maxKeepAliveCount : Nat
  lifeTimeCount : Nat
  maxNotificationsPerPublish : Nat
  publishingEnabled : Bool
  state : SubscriptionState
  publishIntervalCount : Nat
  keepAliveCounter : Nat
  lifeTimeCounter : Nat
  nextSequenceNumber : Nat
  sentNotifications : List (Nat × NotificationMessage)
  pendingNotifications : Nat
deriving DecidableEq, Repr

/-- Modelled from the spec: `timeToExpiration = lifeTimeCounter × publishingInterval`
(spec §3, "Derived"). -/
def Subscription.timeToExpiration (s : Subscription) : Nat :=
  s.lifeTimeCounter * s.publishingInterval

/-- Modelled from the spec: `availableSequenceNumbers` is the ordered key set of
`sentNotifications` (spec §3, "Derived"). -/
def Subscription.getAvailableSequenceNumbers (s : Subscription) : List Nat :=
  s.sentNotifications.map Prod.fst

/-- Modelled from the spec: subscription constructor — state CREATING, counters
full, `nextSequenceNumber` starts at 1, `lifeTimeCount` re-adjusted upward to
at least `3 × maxKeepAliveCount` (spec §3, §9). -/
def Subscription.create (id publishingInterval maxKeepAliveCount lifeTimeCount
    maxNotificationsPerPublish : Nat) (publishingEnabled : Bool) : Subscription :=
  let adjustedLifeTime := max lifeTimeCount (3 * maxKeepAliveCount)
  { id := id
    publishingInterval := publishingInterval
    maxKeepAliveCount := maxKeepAliveCount
    lifeTimeCount := adjustedLifeTime
    maxNotificationsPerPublish := maxNotificationsPerPublish
    publishingEnabled := publishingEnabled
    state := .CREATING
    publishIntervalCount := 0
    keepAliveCounter := maxKeepAliveCount
    lifeTimeCounter := adjustedLifeTime
    nextSequenceNumber := 1
    sentNotifications := []
    pendingNotifications := 0 }

/-- Modelled from the spec: a monitored item reports one more pending
notification; a CLOSED subscription accepts no new notifications (spec §3
invariants). Adding a notification is not an engine event: only ticks and
request arrivals produce responses (spec §4.1 events). -/
def Subscription.onMonitoredItemNotification (s : Subscription) : Subscription :=
  if s.state = .CLOSED then s
  else { s with pendingNotifications := s.pendingNotifications + 1 }

/-- Whether the subscription has data that may be published this tick:
`publishingEnabled` and some monitored item reports data pending
(spec §4.1 rule 1; a disabled subscription never emits data, spec §3). -/
def Subscription.hasPendingData (s : Subscription) : Bool :=
  s.publishingEnabled && s.pendingNotifications != 0

/-- How many notifications one publish harvests:
at most `maxNotificationsPerPublish` (0 ⇒ all available) (spec §4.2). -/
def Subscription.harvestCount (s : Subscription) : Nat :=
  if s.maxNotificationsPerPublish = 0 then s.pendingNotifications
  else min s.maxNotificationsPerPublish s.pendingNotifications

/-- Modelled from the spec: publishing a NotificationMessage (spec §4.2).
Harvest, assign `sequenceNumber = nextSequenceNumber++`, store the message in
`sentNotifications`, reset both counters, state = NORMAL, and build the
PublishResponse whose `availableSequenceNumbers` are the keys of the updated
retransmission queue in order. -/
def Subscription.emitNotificationMessage (s : Subscription) (requestHandle : Nat)
    (ackResults : List StatusCode) : Subscription × PublishResponse :=
  let harvested := s.harvestCount
  let seq := s.nextSequenceNumber
  let msg : NotificationMessage :=
    { sequenceNumber := seq, notificationData := [.dataChange harvested] }
  let sent := s.sentNotifications ++ [(seq, msg)]
  let remaining := s.pendingNotifications - harvested
  let s' := { s with
    nextSequenceNumber := seq + 1
    sentNotifications := sent
    pendingNotifications := remaining
    keepAliveCounter := s.maxKeepAliveCount
    lifeTimeCounter := s.lifeTimeCount
    state := .NORMAL }
  (s', {
    subscriptionId := s.id
    availableSequenceNumbers := sent.map Prod.fst
    notificationMessage := msg
    moreNotifications := remaining != 0
    results := ackResults
    requestHandle := requestHandle
    serviceResult := .Good })

/-- Modelled from the spec: a keep-alive PublishResponse — identical to a data
response except `notificationData` is empty and the sequence number is a
placeholder, not stored (spec §4.2); counters reset, state = KEEPALIVE
(spec §4.1 rule 2). -/
def Subscription.sendKeepAliveResponse (s : Subscription) (requestHandle : Nat)
    (ackResults : List StatusCode) : Subscription × PublishResponse :=
  let s' := { s with
    keepAliveCounter := s.maxKeepAliveCount
    lifeTimeCounter := s.lifeTimeCount
    state := .KEEPALIVE }
  (s', {
    subscriptionId := s.id
    availableSequenceNumbers := s.sentNotifications.map Prod.fst
    notificationMessage := { sequenceNumber := s.nextSequenceNumber, notificationData := [] }
    moreNotifications := false
    results := ackResults
    requestHandle := requestHandle
    serviceResult := .Good })

/-- Remove an acknowledged sequence number from the subscription named by
`sid`, leaving every other subscription untouched (spec §4.3). -/
def removeAcknowledgedNotification (subs : List Subscription) (sid seq : Nat) :
    List Subscription :=
  subs.map fun s =>
    if s.id = sid then
      { s with sentNotifications := s.sentNotifications.filter fun kv => kv.1 ≠ seq }
    else s

/-- The status produced for a single acknowledgement: `Good` when the named
subscription holds the sequence number, `BadSequenceNumberUnknown` when it does
not, `BadSubscriptionIdInvalid` when no live subscription has that id
(spec §4.3). -/
def acknowledgementStatus (subs : List Subscription)
    (ack : SubscriptionAcknowledgement) : StatusCode :=
  match subs.find? (fun s => s.id = ack.subscriptionId) with
  | none => .BadSubscriptionIdInvalid
  | some s =>
      if s.sentNotifications.any (fun kv => kv.1 = ack.sequenceNumber) then .Good
      else .BadSequenceNumberUnknown

/-- Modelled from the spec: acknowledgement processing when a request is
consumed (spec §4.3). For each ack in array order: a known sequence number is
removed from the named subscription's `sentNotifications` and yields `Good`;
an unknown sequence number leaves it unchanged and yields
`BadSequenceNumberUnknown`; an unknown subscription id yields
`BadSubscriptionIdInvalid`. The results vector follows the ack array order. -/
def processAcknowledgements (subs : List Subscription) :
    List SubscriptionAcknowledgement → List Subscription × List StatusCode
  | [] => (subs, [])
  | ack :: rest =>
      let st := acknowledgementStatus subs ack
      let subs1 :=
        if st = .Good then
          removeAcknowledgedNotification subs ack.subscriptionId ack.sequenceNumber
        else subs
      let (subs2, results) := processAcknowledgements subs1 rest
      (subs2, st :: results)

/-- Replace the subscription with the same id in the list. -/
def replaceSubscription (subs : List Subscription) (s : Subscription) :
    List Subscription :=
  subs.map fun t => if t.id = s.id then s else t

/-- Let subscription `sid` consume the queued request `qr`: process the
request's acknowledgements against all live subscriptions, then emit either a
data NotificationMessage (`wantData`) or a keep-alive (spec §4.1–§4.3). -/
def serveWithRequest (subs : List Subscription) (sid : Nat) (qr : QueuedRequest)
    (wantData : Bool) : List Subscription × Response :=
  let (subs1, results) :=
    processAcknowledgements subs qr.request.subscriptionAcknowledgements
  match subs1.find? (fun t => t.id = sid) with
  | none => (subs1, .serviceFault .BadNoSubscription qr.request.requestHandle)
  | some s =>
      let (s', resp) :=
        if wantData then s.emitNotificationMessage qr.request.requestHandle results
        else s.sendKeepAliveResponse qr.request.requestHandle results
      (replaceSubscription subs1 s', .publish resp)

/-- Urgency order on subscriptions: ascending `timeToExpiration`
(most urgent first), ties broken by smaller subscription id (spec §4.1). -/
def subscriptionUrgencyLE (a b : Subscription) : Bool :=
  a.timeToExpiration < b.timeToExpiration ||
    (a.timeToExpiration = b.timeToExpiration && a.id ≤ b.id)

/-- Insert a subscription into a list sorted by `subscriptionUrgencyLE`. -/
def insertByAge (s : Subscription) : List Subscription → List Subscription
  | [] => [s]
  | t :: rest =>
      if subscriptionUrgencyLE s t then s :: t :: rest else t :: insertByAge s rest

/-- Insertion sort by `subscriptionUrgencyLE`. -/
def sortByAge : List Subscription → List Subscription
  | [] => []
  | s :: rest => insertByAge s (sortByAge rest)

/-- The LATE subscriptions, most urgent first (spec §4.1 tie-break). -/
def findLateSorted (subs : List Subscription) : List Subscription :=
  sortByAge (subs.filter fun s => s.state = .LATE)

/-- Modelled from the spec: the engine state — owned subscriptions, the bounded
FIFO of queued requests, `maxPublishRequestInQueue`, and the closed
subscriptions awaiting status-change delivery (spec §3, "PublishEngine owns"). -/
structure ServerSidePublishEngine where
  maxPublishRequestInQueue : Nat
  subscriptions : List Subscription
  queue : List QueuedRequest
  pendingClosedSubscriptions : List Subscription
deriving DecidableEq, Repr

namespace ServerSidePublishEngine

/-- Modelled from the spec: engine constructor; `maxPublishRequestInQueue` is an
optional positive integer, default 100 (spec §6, "Engine constructor options"). -/
def create (maxPublishRequestInQueueOption : Option Nat) : ServerSidePublishEngine :=
  { maxPublishRequestInQueue := maxPublishRequestInQueueOption.getD 100
    subscriptions := []
    queue := []
    pendingClosedSubscriptions := [] }

/-- Modelled from the spec: attach an externally created subscription
(spec §3 "Lifecycle"). -/
def add_subscription (e : ServerSidePublishEngine) (s : Subscription) :
    ServerSidePublishEngine :=
  { e with subscriptions := e.subscriptions ++ [s] }

def subscriptionCount (e : ServerSidePublishEngine) : Nat :=
  e.subscriptions.length

def pendingPublishRequestCount (e : ServerSidePublishEngine) : Nat :=
  e.queue.length

def pendingClosedSubscriptionCount (e : ServerSidePublishEngine) : Nat :=
  e.pendingClosedSubscriptions.length

def getSubscriptionById (e : ServerSidePublishEngine) (sid : Nat) : Option Subscription :=
  e.subscriptions.find? fun s => s.id = sid

/-- Modelled from the spec: the ordering in which competing LATE subscriptions
are served an incoming request (spec §4.1 tie-break, §4.4 step 4). -/
def findLateSubscriptionsSortedByAge (e : ServerSidePublishEngine) :
    List Subscription :=
  findLateSorted e.subscriptions

/-- Modelled from the spec: a monitored item of subscription `sid` produced a
notification between engine events; this mutates `pendingNotifications` only
and produces no response (spec §4.1: responses are produced by ticks and by
request arrivals only). -/
def simulateMonitoredItemNotification (e : ServerSidePublishEngine) (sid : Nat) :
    ServerSidePublishEngine × List Response :=
  ({ e with subscriptions := e.subscriptions.map fun s =>
      if s.id = sid then s.onMonitoredItemNotification else s }, [])

end ServerSidePublishEngine

/-- Modelled from the spec: enqueue with overflow handling (spec §4.4 steps 2–3).
When the queue already holds `maxCount` entries, the oldest request is dequeued
and answered `ServiceFault{BadTooManyPublishRequests}` with that displaced
request's handle; then the new request is enqueued. -/
def enqueuePublishRequest (maxCount : Nat) (q : List QueuedRequest)
    (entry : QueuedRequest) : List QueuedRequest × List Response :=
  if q.length = maxCount then
    match q with
    | [] => ([entry], [])
    | old :: restQ =>
        (restQ ++ [entry],
         [.serviceFault .BadTooManyPublishRequests old.request.requestHandle])
  else (q ++ [entry], [])

/-- Modelled from the spec: the late-subscription pass (spec §4.4 step 4,
§4.5). While the queue is non-empty and a closed-subscription status is
pending or some subscription is LATE: pop the oldest request; a pending closed
subscription is answered with a PublishResponse whose single NotificationData
is a StatusChangeNotification with `BadTimeout` and is then discarded;
otherwise the most urgent LATE subscription consumes the request. -/
def latePass : List QueuedRequest → List Subscription → List Subscription →
    List Subscription × List Subscription × List QueuedRequest × List Response
  | [], subs, pending => (subs, pending, [], [])
  | qr :: rest, subs, pending =>
      match pending with
      | closed :: pendingRest =>
          let (subs1, results) :=
            processAcknowledgements subs qr.request.subscriptionAcknowledgements
          let resp : Response := .publish {
            subscriptionId := closed.id
            availableSequenceNumbers := []
            notificationMessage := { sequenceNumber := closed.nextSequenceNumber
                                     notificationData := [.statusChange .BadTimeout] }
            moreNotifications := false
            results := results
            requestHandle := qr.request.requestHandle
            serviceResult := .Good }
          let (subs2, pending2, q2, r2) := latePass rest subs1 pendingRest
          (subs2, pending2, q2, resp :: r2)
      | [] =>
          match findLateSorted subs with
          | [] => (subs, pending, qr :: rest, [])
          | lateSub :: _ =>
              let (subs1, resp) :=
                serveWithRequest subs lateSub.id qr lateSub.hasPendingData
              let (subs2, pending2, q2, r2) := latePass rest subs1 pending
              (subs2, pending2, q2, resp :: r2)

namespace ServerSidePublishEngine

/-- Modelled from the spec: `onPublishRequest` (spec §4.4). Reject with
`BadNoSubscription` when there is no subscription and no pending closed
delivery; otherwise enqueue (displacing the oldest on overflow) and run the
late-subscription pass. -/
def onPublishRequest (e : ServerSidePublishEngine) (req : PublishRequest)
    (now : Nat) : ServerSidePublishEngine × List Response :=
  if e.subscriptions.isEmpty && e.pendingClosedSubscriptions.isEmpty then
    (e, [.serviceFault .BadNoSubscription req.requestHandle])
  else
    let (q1, faults) :=
      enqueuePublishRequest e.maxPublishRequestInQueue e.queue
        { request := req, arrivalTime := now }
    let (subs2, pending2, q2, resps) :=
      latePass q1 e.subscriptions e.pendingClosedSubscriptions
    ({ e with
        subscriptions := subs2
        pendingClosedSubscriptions := pending2
        queue := q2 }, faults ++ resps)

end ServerSidePublishEngine

/-- Modelled from the spec: one publishing-interval tick of the subscription
`sid` inside the engine (spec §4.1). CREATING publishes on its first tick
regardless of data; NORMAL/KEEPALIVE publish data when pending and a request is
available, else run the keep-alive countdown; LATE (starved) only counts down
`lifeTimeCounter` and closes at zero, moving onto the pending-closed list. -/
def tickSubscription (subs : List Subscription) (pending : List Subscription)
    (queue : List QueuedRequest) (sid : Nat) :
    List Subscription × List Subscription × List QueuedRequest × List Response :=
  match subs.find? (fun t => t.id = sid) with
  | none => (subs, pending, queue, [])
  | some s0 =>
      let s := { s0 with publishIntervalCount := s0.publishIntervalCount + 1 }
      match s.state with
      | .CLOSED => (replaceSubscription subs s, pending, queue, [])
      | .CREATING =>
          match queue with
          | [] => (replaceSubscription subs { s with state := .LATE }, pending, queue, [])
          | qr :: rest =>
              let (subs', resp) :=
                serveWithRequest (replaceSubscription subs s) sid qr s.hasPendingData
              (subs', pending, rest, [resp])
      | .LATE =>
          match queue with
          | qr :: rest =>
              let (subs', resp) :=
                serveWithRequest (replaceSubscription subs s) sid qr s.hasPendingData
              (subs', pending, rest, [resp])
          | [] =>
              let ltc := s.lifeTimeCounter - 1
              if ltc = 0 then
                (subs.filter (fun t => t.id ≠ sid),
                 pending ++ [{ s with state := .CLOSED, lifeTimeCounter := 0 }],
                 queue, [])
              else
                (replaceSubscription subs { s with lifeTimeCounter := ltc },
                 pending, queue, [])
      | _ =>
          if s.hasPendingData then
            match queue with
            | qr :: rest =>
                let (subs', resp) := serveWithRequest (replaceSubscription subs s) sid qr true
                (subs', pending, rest, [resp])
            | [] =>
                (replaceSubscription subs { s with state := .LATE }, pending, queue, [])
          else
            let kac := s.keepAliveCounter - 1
            if kac = 0 then
              match queue with
              | qr :: rest =>
                  let (subs', resp) := serveWithRequest (replaceSubscription subs s) sid qr false
                  (subs', pending, rest, [resp])
              | [] =>
                  (replaceSubscription subs { s with state := .LATE, keepAliveCounter := 0 },
                   pending, queue, [])
            else
              (replaceSubscription subs { s with keepAliveCounter := kac },
               pending, queue, [])

/-- Tick every listed subscription id in order, threading engine state. -/
def tickAll : List Nat → List Subscription → List Subscription →
    List QueuedRequest →
    List Subscription × List Subscription × List QueuedRequest × List Response
  | [], subs, pending, queue => (subs, pending, queue, [])
  | sid :: rest, subs, pending, queue =>
      let (subs1, pending1, q1, r1) := tickSubscription subs pending queue sid
      let (subs2, pending2, q2, r2) := tickAll rest subs1 pending1 q1
      (subs2, pending2, q2, r1 ++ r2)

/-- Whether a queued request has timed out at time `now`:
`timeoutHint > 0` and `now - arrivalTime ≥ timeoutHint` (spec §4.5). -/
def requestExpired (now : Nat) (qr : QueuedRequest) : Bool :=
  qr.request.timeoutHint != 0 && qr.request.timeoutHint ≤ now - qr.arrivalTime

/-- Modelled from the spec: the per-tick timeout scan — the queue is scanned
front-to-back, every expired entry is removed and answered
`ServiceFault{BadTimeout}`; entries with `timeoutHint == 0` never expire
(spec §4.5). -/
def timeoutScan (now : Nat) : List QueuedRequest → List QueuedRequest × List Response
  | [] => ([], [])
  | qr :: rest =>
      let (q', r') := timeoutScan now rest
      if requestExpired now qr then
        (q', .serviceFault .BadTimeout qr.request.requestHandle :: r')
      else (qr :: q', r')

namespace ServerSidePublishEngine

/-- Modelled from the spec: one internal engine tick at time `now` — every
subscription advances one publishing interval, then the queue is scanned for
timed-out requests (spec §4.1, §4.5, §4.6; subscriptions sharing one interval
run on the single cooperative timer). -/
def tick (e : ServerSidePublishEngine) (now : Nat) :
    ServerSidePublishEngine × List Response :=
  let ids := e.subscriptions.map Subscription.id
  let (subs1, pending1, q1, r1) :=
    tickAll ids e.subscriptions e.pendingClosedSubscriptions e.queue
  let (q2, r2) := timeoutScan now q1
  ({ e with
      subscriptions := subs1
      pendingClosedSubscriptions := pending1
      queue := q2 }, r1 ++ r2)

end ServerSidePublishEngine

/-- Drive `count` engine ticks, the i-th at time `(start + i) * interval`,
collecting all responses in order. -/
def runTicks (interval : Nat) : Nat → Nat → ServerSidePublishEngine →
    ServerSidePublishEngine × List Response
  | 0, _, e => (e, [])
  | count + 1, i, e =>
      let (e1, r1) := e.tick (i * interval)
      let (e2, r2) := runTicks interval count (i + 1) e1
      (e2, r1 ++ r2)

/-- The `availableSequenceNumbers` carried by a response, when it is a
PublishResponse. -/
def Response.availableSequenceNumbersOf : Response → Option (List Nat)
  | .publish r => some r.availableSequenceNumbers
  | .serviceFault _ _ => none

/-- A PublishRequest with no acknowledgements and no timeout hint. -/
def emptyPublishRequest (h : Nat) : PublishRequest :=
  { requestHandle := h, timeoutHint := 0, subscriptionAcknowledgements := [] }

/-- A PublishRequest with `timeoutHint = 22000` ms, as in test ZDZ-J. -/
def timeoutHintedPublishRequest (h : Nat) : PublishRequest :=
  { requestHandle := h, timeoutHint := 22000, subscriptionAcknowledgements := [] }

/-- The subscription configuration used across the test-suite scenarios
(ZDZ-4, ZDZ-9, …): id 1234, publishingInterval 1000 ms, maxKeepAliveCount 20,
lifeTimeCount 1000. -/
def exampleSubscription : Subscription :=
  Subscription.create 1234 1000 20 1000 0 true

/-- Scenario of test ZDZ-4: one notification, one request, one interval; then a
second notification, request and interval; collect the emitted responses. -/
def scenarioAvailableSeqResponses : List Response :=
  let e0 := (ServerSidePublishEngine.create none).add_subscription exampleSubscription
  let (e1, _) := e0.simulateMonitoredItemNotification 1234
  let (e2, _) := e1.onPublishRequest (emptyPublishRequest 1) 0
  let (e3, r3) := e2.tick 1000
  let (e4, _) := e3.simulateMonitoredItemNotification 1234
  let (e5, _) := e4.onPublishRequest (emptyPublishRequest 2) 1000
  let (_, r6) := e5.tick 2000
  r3 ++ r6

/-- A notification message as stored in the retransmission queue. -/
def exampleNotificationMessage (n : Nat) : NotificationMessage :=
  { sequenceNumber := n, notificationData := [.dataChange 1] }

/-- A subscription whose retransmission queue holds sequence numbers 1, 3, 4
(the state reached in test ZDZ-9 after acknowledging 2). -/
def exampleAckSubscription : Subscription :=
  { exampleSubscription with
      state := .NORMAL
      nextSequenceNumber := 5
      sentNotifications := [(1, exampleNotificationMessage 1),
                            (3, exampleNotificationMessage 3),
                            (4, exampleNotificationMessage 4)] }

/-- Scenario of test ZDZ-J: five requests with `timeoutHint = 22000` queued at
time 0, then 1 + 20 + 2 publishing intervals of 1000 ms. -/
def scenarioTimeout : ServerSidePublishEngine × List Response :=
  let e0 := (ServerSidePublishEngine.create none).add_subscription
    (Subscription.create 1234 1000 20 4 0 true)
  let (e1, _) := e0.onPublishRequest (timeoutHintedPublishRequest 1) 0
  let (e2, _) := e1.onPublishRequest (timeoutHintedPublishRequest 2) 0
  let (e3, _) := e2.onPublishRequest (timeoutHintedPublishRequest 3) 0
  let (e4, _) := e3.onPublishRequest (timeoutHintedPublishRequest 4) 0
  let (e5, _) := e4.onPublishRequest (timeoutHintedPublishRequest 5) 0
  runTicks 1000 23 1 e5

/-- Scenario of tests ZDZ-C/ZDZ-H: a NORMAL subscription with one queued
request receives a monitored-item notification between ticks; collect the
responses produced by the notification itself and by the following tick. -/
def scenarioBetweenTicks : List Response × List Response :=
  let e0 : ServerSidePublishEngine :=
    { ServerSidePublishEngine.create none with
        subscriptions := [{ exampleSubscription with state := .NORMAL }]
        queue := [{ request := emptyPublishRequest 1, arrivalTime := 0 }] }
  let (e1, notifyResponses) := e0.simulateMonitoredItemNotification 1234
  let (_, tickResponses) := e1.tick 1000
  (notifyResponses, tickResponses)

/-- The `notificationData` carried by a response, when it is a
PublishResponse. -/
def Response.notificationDataOf : Response → Option (List NotificationData)
  | .publish r => some r.notificationMessage.notificationData
  | .serviceFault _ _ => none

/-- An engine whose queue is full at `maxPublishRequestInQueue = 2`
(the ZDZ-8 overflow situation scaled down). -/
def overflowEngine : ServerSidePublishEngine :=
  { maxPublishRequestInQueue := 2
    subscriptions := [exampleSubscription]
    queue := [{ request := emptyPublishRequest 1, arrivalTime := 0 },
              { request := emptyPublishRequest 2, arrivalTime := 0 }]
    pendingClosedSubscriptions := [] }

/-- A LATE subscription one interval away from lifetime expiry. -/
def lateExpiringSubscription : Subscription :=
  { exampleSubscription with state := .LATE, lifeTimeCounter := 1 }

/-- The engine owning `lateExpiringSubscription` with an empty queue
(the ZDZ-I situation just before the closing tick). -/
def lateExpiringEngine : ServerSidePublishEngine :=
  { ServerSidePublishEngine.create none with subscriptions := [lateExpiringSubscription] }

/-- A starved LATE subscription with one pending notification
(the ZDZ-G situation). -/
def lateServedSubscription : Subscription :=
  { exampleSubscription with state := .LATE, pendingNotifications := 1 }

/-- The engine owning `lateServedSubscription` with an empty queue. -/
def lateServedEngine : ServerSidePublishEngine :=
  { ServerSidePublishEngine.create none with subscriptions := [lateServedSubscription] }

/-- The engine of test ZDZ-B just before the first tick: a CREATING
subscription and one queued PublishRequest. -/
def creatingEngine : ServerSidePublishEngine :=
  { ServerSidePublishEngine.create none with
      subscriptions := [exampleSubscription]
      queue := [{ request := emptyPublishRequest 1, arrivalTime := 0 }] }

/-- The fields of a subscription that acknowledgement processing never touches:
everything except the retransmission queue. -/
def Subscription.sameCore (t s : Subscription) : Prop :=
  t.id = s.id ∧ t.state = s.state ∧ t.pendingNotifications = s.pendingNotifications ∧
  t.publishingEnabled = s.publishingEnabled ∧
  t.publishIntervalCount = s.publishIntervalCount ∧
  t.maxKeepAliveCount = s.maxKeepAliveCount ∧
  t.maxNotificationsPerPublish = s.maxNotificationsPerPublish ∧
  t.nextSequenceNumber = s.nextSequenceNumber

theorem Subscription.sameCore_refl (s : Subscription) : s.sameCore s :=
  ⟨rfl, rfl, rfl, rfl, rfl, rfl, rfl, rfl⟩

theorem Subscription.sameCore_trans {a b c : Subscription}
    (h1 : a.sameCore b) (h2 : b.sameCore c) : a.sameCore c := by
  obtain ⟨e1, e2, e3, e4, e5, e6, e7, e8⟩ := h1
  obtain ⟨f1, f2, f3, f4, f5, f6, f7, f8⟩ := h2
  exact ⟨e1.trans f1, e2.trans f2, e3.trans f3, e4.trans f4,
         e5.trans f5, e6.trans f6, e7.trans f7, e8.trans f8⟩

theorem removeAcknowledgedNotification_singleton (s : Subscription) (sid seq : Nat) :
    ∃ t, removeAcknowledgedNotification [s] sid seq = [t] ∧ t.sameCore s := by
  by_cases h : s.id = sid
  · exact ⟨{ s with sentNotifications := s.sentNotifications.filter fun kv => kv.1 ≠ seq },
      by simp [removeAcknowledgedNotification, h], ⟨rfl, rfl, rfl, rfl, rfl, rfl, rfl, rfl⟩⟩
  · exact ⟨s, by simp [removeAcknowledgedNotification, h], Subscription.sameCore_refl s⟩

theorem processAcknowledgements_singleton :
    ∀ (acks : List SubscriptionAcknowledgement) (s : Subscription),
      ∃ t, (processAcknowledgements [s] acks).1 = [t] ∧ t.sameCore s := by
  intro acks
  induction acks with
  | nil => exact fun s => ⟨s, rfl, Subscription.sameCore_refl s⟩
  | cons a rest ih =>
      intro s
      unfold processAcknowledgements
      by_cases hst : acknowledgementStatus [s] a = .Good
      · obtain ⟨t, ht, htc⟩ := removeAcknowledgedNotification_singleton s a.subscriptionId
          a.sequenceNumber
        obtain ⟨u, hu, huc⟩ := ih t
        refine ⟨u, ?_, Subscription.sameCore_trans huc htc⟩
        simp only [hst, if_pos rfl, ht]
        simpa using hu
      · obtain ⟨u, hu, huc⟩ := ih s
        refine ⟨u, ?_, huc⟩
        simp only [if_neg hst]
        simpa using hu

theorem chain_lt_concat {l : List Nat} {n : Nat}
    (h1 : List.Chain' (· < ·) l) (h2 : ∀ k ∈ l, k < n) :
    List.Chain' (· < ·) (l ++ [n]) := by
  induction l with
  | nil => simp
  | cons a t ih =>
      rw [List.chain'_cons'] at h1
      rw [List.cons_append, List.chain'_cons']
      obtain ⟨hhead, htail⟩ := h1
      refine ⟨?_, ih htail fun k hk => h2 k (List.mem_cons_of_mem a hk)⟩
      intro y hy
      cases t with
      | nil =>
          simp at hy
          subst hy
          exact h2 a (List.mem_cons_self a [])
      | cons b t' => exact hhead y (by simpa using hy)

theorem map_fst_filter_ne (l : List (Nat × NotificationMessage)) (seq : Nat) :
    ((l.filter fun kv => kv.1 ≠ seq).map Prod.fst)
      = (l.map Prod.fst).filter fun k => k ≠ seq := by
  induction l with
  | nil => rfl
  | cons kv t ih =>
      by_cases h : kv.1 = seq
      · simpa [List.filter_cons, h] using ih
      · simpa [List.filter_cons, h] using ih

theorem timeoutScan_eq (now : Nat) :
    ∀ q : List QueuedRequest,
      timeoutScan now q
        = (q.filter fun qr => !requestExpired now qr,
           (q.filter (requestExpired now)).map
             fun qr => .serviceFault .BadTimeout qr.request.requestHandle) := by
  intro q
  induction q with
  | nil => rfl
  | cons qr rest ih =>
      by_cases h : requestExpired now qr <;>
        simp [timeoutScan, List.filter_cons, h, ih]

theorem timeoutScan_no_hint (now : Nat) :
    ∀ q : List QueuedRequest, (∀ qr ∈ q, qr.request.timeoutHint = 0) →
      timeoutScan now q = (q, []) := by
  intro q
  induction q with
  | nil => exact fun _ => rfl
  | cons qr rest ih =>
      intro h
      have hq : requestExpired now qr = false := by
        simp [requestExpired, h qr (List.mem_cons_self qr rest)]
      simp [timeoutScan, hq, ih fun x hx => h x (List.mem_cons_of_mem qr hx)]

theorem enqueuePublishRequest_length (maxCount : Nat) (q : List QueuedRequest)
    (entry : QueuedRequest) (hle : q.length ≤ maxCount) (hpos : 1 ≤ maxCount) :
    ((enqueuePublishRequest maxCount q entry).1).length ≤ maxCount := by
  unfold enqueuePublishRequest
  split
  · next heq =>
      cases q with
      | nil => simpa using le_trans (by omega : 1 ≤ maxCount) le_rfl
      | cons old restQ => simp_all
  · next hne => simp; omega

theorem latePass_queue_length :
    ∀ (q : List QueuedRequest) (subs pending : List Subscription),
      ((latePass q subs pending).2.2.1).length ≤ q.length := by
  intro q
  induction q with
  | nil => simp [latePass]
  | cons qr rest ih =>
      intro subs pending
      unfold latePass
      cases pending with
      | cons closed pendingRest =>
          simpa using le_trans (ih _ _) (Nat.le_succ _)
      | nil =>
          cases h : findLateSorted subs with
          | nil => simp [h]
          | cons lateSub others =>
              simpa [h] using le_trans (ih _ _) (Nat.le_succ _)

theorem subscriptionUrgencyLE_total (a b : Subscription) :
    subscriptionUrgencyLE a b = true ∨ subscriptionUrgencyLE b a = true := by
  unfold subscriptionUrgencyLE
  simp only [Bool.or_eq_true, Bool.and_eq_true, decide_eq_true_eq]
  omega

theorem subscriptionUrgencyLE_trans {a b c : Subscription}
    (h1 : subscriptionUrgencyLE a b = true) (h2 : subscriptionUrgencyLE b c = true) :
    subscriptionUrgencyLE a c = true := by
  unfold subscriptionUrgencyLE at h1 h2 ⊢
  simp only [Bool.or_eq_true, Bool.and_eq_true, decide_eq_true_eq] at h1 h2 ⊢
  omega

theorem insertByAge_perm (s : Subscription) :
    ∀ l : List Subscription, List.Perm (insertByAge s l) (s :: l) := by
  intro l
  induction l with
  | nil => exact List.Perm.refl _
  | cons t rest ih =>
      unfold insertByAge
      split
      · exact List.Perm.refl _
      · exact List.Perm.trans (List.Perm.cons t ih) (List.Perm.swap s t rest)

theorem sortByAge_perm : ∀ l : List Subscription, List.Perm (sortByAge l) l := by
  intro l
  induction l with
  | nil => exact List.Perm.refl _
  | cons s rest ih =>
      exact List.Perm.trans (insertByAge_perm s (sortByAge rest)) (List.Perm.cons s ih)

theorem insertByAge_pairwise (s : Subscription) :
    ∀ l : List Subscription,
      l.Pairwise (fun a b => subscriptionUrgencyLE a b = true) →
      (insertByAge s l).Pairwise (fun a b => subscriptionUrgencyLE a b = true) := by
  intro l
  induction l with
  | nil => intro _; simp [insertByAge]
  | cons t rest ih =>
      intro h
      obtain ⟨ht, hrest⟩ := List.pairwise_cons.1 h
      unfold insertByAge
      split
      · next hle =>
          refine List.pairwise_cons.2 ⟨?_, h⟩
          intro b hb
          rcases List.mem_cons.1 hb with rfl | hb'
          · exact hle
          · exact subscriptionUrgencyLE_trans hle (ht b hb')
      · next hnle =>
          refine List.pairwise_cons.2 ⟨?_, ih hrest⟩
          intro b hb
          rcases List.mem_cons.1 ((insertByAge_perm s rest).mem_iff.1 hb) with rfl | hb'
          · rcases subscriptionUrgencyLE_total b t with hbt | htb
            · exact absurd hbt hnle
            · exact htb
          · exact ht b hb'

theorem sortByAge_pairwise :
    ∀ l : List Subscription,
      (sortByAge l).Pairwise (fun a b => subscriptionUrgencyLE a b = true) := by
  intro l
  induction l with
  | nil => simp [sortByAge]
  | cons s rest ih => exact insertByAge_pairwise s (sortByAge rest) ih

theorem onMonitoredItemNotification_state (s : Subscription) :
    (s.onMonitoredItemNotification).state = s.state := by
  unfold Subscription.onMonitoredItemNotification
  split <;> rfl

theorem notify_map_state (sid : Nat) :
    ∀ l : List Subscription,
      ((l.map fun s => if s.id = sid then s.onMonitoredItemNotification else s).map
        Subscription.state) = l.map Subscription.state := by
  intro l
  induction l with
  | nil => rfl
  | cons s t ih =>
      simp only [List.map_cons, ih, List.cons.injEq, and_true]
      by_cases h : s.id = sid <;> simp [h, onMonitoredItemNotification_state]

/-- C9: when a PublishEngine is constructed without an explicit
`maxPublishRequestInQueue` option, `maxPublishRequestInQueue` is 100. -/
theorem engine_default_maxPublishRequestInQueue :
    (ServerSidePublishEngine.create none).maxPublishRequestInQueue = 100 := rfl

/-- C8: `findLateSubscriptionsSortedByAge` returns exactly the subscriptions
currently in state LATE, ordered by ascending
`timeToExpiration = lifeTimeCounter × publishingInterval` and, for equal
`timeToExpiration`, by smaller subscription id — the order in which competing
LATE subscriptions are served. -/
theorem findLateSubscriptionsSortedByAge_spec (e : ServerSidePublishEngine) :
    List.Perm (e.findLateSubscriptionsSortedByAge)
        (e.subscriptions.filter fun s => s.state = .LATE) ∧
    (∀ s, s ∈ e.findLateSubscriptionsSortedByAge ↔
        s ∈ e.subscriptions ∧ s.state = .LATE) ∧
    e.findLateSubscriptionsSortedByAge.Pairwise (fun a b =>
      a.lifeTimeCounter * a.publishingInterval < b.lifeTimeCounter * b.publishingInterval ∨
        (a.lifeTimeCounter * a.publishingInterval = b.lifeTimeCounter * b.publishingInterval ∧
         a.id ≤ b.id)) := by
  refine ⟨sortByAge_perm _, ?_, ?_⟩
  · intro s
    rw [show e.findLateSubscriptionsSortedByAge = sortByAge
          (e.subscriptions.filter fun s => s.state = .LATE) from rfl,
        (sortByAge_perm _).mem_iff]
    simp [List.mem_filter]
  · refine List.Pairwise.imp ?_ (sortByAge_pairwise _)
    intro a b h
    simpa [subscriptionUrgencyLE, Subscription.timeToExpiration, Bool.or_eq_true,
      Bool.and_eq_true, decide_eq_true_eq] using h

/-- C7: on every engine tick, each queued request with `timeoutHint > 0` and
`now - arrivalTime ≥ timeoutHint` is removed from the queue and answered
`ServiceFault{BadTimeout}`, while requests with `timeoutHint = 0` never
expire; in the ZDZ-J scenario (five requests with timeoutHint 22000 ms,
publishingInterval 1000 ms, 1 + 20 + 2 intervals) the two requests consumed
by keep-alives are answered Good and the remaining three BadTimeout, leaving
the queue empty. -/
theorem publish_request_timeout_spec :
    (∀ (now : Nat) (q : List QueuedRequest),
        timeoutScan now q
          = (q.filter fun qr => !requestExpired now qr,
             (q.filter (requestExpired now)).map
               fun qr => .serviceFault .BadTimeout qr.request.requestHandle)) ∧
    (∀ (now : Nat) (qr : QueuedRequest),
        qr.request.timeoutHint = 0 → requestExpired now qr = false) ∧
    scenarioTimeout.2.map Response.summary
      = [(.Good, 1), (.Good, 2), (.BadTimeout, 3), (.BadTimeout, 4), (.BadTimeout, 5)] ∧
    scenarioTimeout.1.queue = [] := by
  refine ⟨timeoutScan_eq, ?_, ?_, ?_⟩
  · intro now qr h
    simp [requestExpired, h]
  · decide
  · decide

/-- Closed witness for `publish_request_timeout_spec`: a request with
`timeoutHint = 0` has not expired at time 5. -/
theorem publish_request_timeout_spec_witness :
    requestExpired 5 { request := emptyPublishRequest 1, arrivalTime := 0 } = false :=
  publish_request_timeout_spec.2.1 5 { request := emptyPublishRequest 1, arrivalTime := 0 }
    (by decide)

/-- C1: every PublishResponse produced by publishing a NotificationMessage
carries `availableSequenceNumbers` equal to the keys of the updated
`sentNotifications` retransmission queue, in ascending order; in the ZDZ-4
scenario the consecutive responses carry [1] and then [1, 2]. -/
theorem availableSequenceNumbers_spec :
    (∀ (s : Subscription) (rh : Nat) (ackResults : List StatusCode),
        List.Chain' (· < ·) s.getAvailableSequenceNumbers →
        (∀ k ∈ s.getAvailableSequenceNumbers, k < s.nextSequenceNumber) →
        ((s.emitNotificationMessage rh ackResults).2.availableSequenceNumbers
            = ((s.emitNotificationMessage rh ackResults).1).getAvailableSequenceNumbers ∧
         List.Chain' (· < ·)
            (s.emitNotificationMessage rh ackResults).2.availableSequenceNumbers)) ∧
    scenarioAvailableSeqResponses.map Response.availableSequenceNumbersOf
      = [some [1], some [1, 2]] := by
  constructor
  · intro s rh ackResults hchain hbound
    refine ⟨rfl, ?_⟩
    have heq : (s.emitNotificationMessage rh ackResults).2.availableSequenceNumbers
        = s.getAvailableSequenceNumbers ++ [s.nextSequenceNumber] := by
      simp [Subscription.emitNotificationMessage, Subscription.getAvailableSequenceNumbers]
    rw [heq]
    exact chain_lt_concat hchain hbound
  · decide

/-- Closed witness for `availableSequenceNumbers_spec`: publishing from the
retransmission queue {1, 3, 4} yields ascending available sequence numbers. -/
theorem availableSequenceNumbers_spec_witness :
    List.Chain' (· < ·)
      (exampleAckSubscription.emitNotificationMessage 7 []).2.availableSequenceNumbers :=
  (availableSequenceNumbers_spec.1 exampleAckSubscription 7 []
    (by simp [exampleAckSubscription, exampleSubscription, Subscription.create,
          Subscription.getAvailableSequenceNumbers, exampleNotificationMessage,
          List.chain'_cons])
    (by decide)).2

theorem processAcknowledgements_results_length :
    ∀ (acks : List SubscriptionAcknowledgement) (subs : List Subscription),
      (processAcknowledgements subs acks).2.length = acks.length := by
  intro acks
  induction acks with
  | nil => intro subs; rfl
  | cons a rest ih =>
      intro subs
      unfold processAcknowledgements
      by_cases h : acknowledgementStatus subs a = .Good <;> simp [h, ih]

theorem removeAck_map_available (sid seq : Nat) :
    ∀ subs : List Subscription,
      (removeAcknowledgedNotification subs sid seq).map
          Subscription.getAvailableSequenceNumbers
        = subs.map fun t =>
            if t.id = sid then t.getAvailableSequenceNumbers.filter fun k => k ≠ seq
            else t.getAvailableSequenceNumbers := by
  intro subs
  unfold removeAcknowledgedNotification
  rw [List.map_map]
  refine List.map_congr_left ?_
  intro t _
  by_cases h : t.id = sid
  · simp only [Function.comp]
    rw [if_pos h, if_pos h]
    exact map_fst_filter_ne t.sentNotifications seq
  · simp only [Function.comp]
    rw [if_neg h, if_neg h]

/-- C2: when a consumed PublishRequest carries acknowledgements for
subscription S, each ack whose `sequenceNumber` is a key of S's
`sentNotifications` removes that key and appends Good to `results`; an unknown
`sequenceNumber` leaves `sentNotifications` unchanged and appends
`BadSequenceNumberUnknown`; `results` follows the ack array order (one entry
per ack); acking [1, 3] out of available [1, 3, 4] yields [Good, Good] and
leaves [4]. -/
theorem acknowledgement_processing_spec :
    (∀ (subs : List Subscription) (s : Subscription) (ack : SubscriptionAcknowledgement),
        subs.find? (fun t => t.id = ack.subscriptionId) = some s →
        ((ack.sequenceNumber ∈ s.getAvailableSequenceNumbers →
            (processAcknowledgements subs [ack]).2 = [.Good] ∧
            (processAcknowledgements subs [ack]).1.map
                Subscription.getAvailableSequenceNumbers
              = subs.map fun t =>
                  if t.id = ack.subscriptionId then
                    t.getAvailableSequenceNumbers.filter fun k => k ≠ ack.sequenceNumber
                  else t.getAvailableSequenceNumbers) ∧
         (ack.sequenceNumber ∉ s.getAvailableSequenceNumbers →
            (processAcknowledgements subs [ack]).2 = [.BadSequenceNumberUnknown] ∧
            (processAcknowledgements subs [ack]).1 = subs))) ∧
    (∀ (subs : List Subscription) (acks : List SubscriptionAcknowledgement),
        (processAcknowledgements subs acks).2.length = acks.length) ∧
    (processAcknowledgements [exampleAckSubscription]
        [⟨1234, 1⟩, ⟨1234, 3⟩]).2 = [.Good, .Good] ∧
    (processAcknowledgements [exampleAckSubscription]
        [⟨1234, 1⟩, ⟨1234, 3⟩]).1.map Subscription.getAvailableSequenceNumbers
      = [[4]] := by
  refine ⟨?_, fun subs acks => processAcknowledgements_results_length acks subs, ?_, ?_⟩
  · intro subs s ack hfind
    constructor
    · intro hmem
      have hanyT : (s.sentNotifications.any fun kv => kv.1 = ack.sequenceNumber)
          = true := by
        rw [List.any_eq_true]
        obtain ⟨kv, hkv, hfst⟩ := List.mem_map.1 hmem
        exact ⟨kv, hkv, by simp [hfst]⟩
      have hstatus : acknowledgementStatus subs ack = .Good := by
        simp [acknowledgementStatus, hfind, hanyT]
      constructor
      · simp [processAcknowledgements, hstatus]
      · simp [processAcknowledgements, hstatus, removeAck_map_available]
    · intro hmem
      have hanyF : (s.sentNotifications.any fun kv => kv.1 = ack.sequenceNumber)
          = false := by
        rw [List.any_eq_false]
        intro kv hkv
        simp only [decide_eq_true_eq]
        intro hfst
        exact hmem (List.mem_map.2 ⟨kv, hkv, hfst⟩)
      have hstatus : acknowledgementStatus subs ack = .BadSequenceNumberUnknown := by
        simp [acknowledgementStatus, hfind, hanyF]
      constructor
      · simp [processAcknowledgements, hstatus]
      · simp [processAcknowledgements, hstatus]
  · decide
  · decide

/-- Closed witness for `acknowledgement_processing_spec`: acknowledging the
known sequence number 3 on the retransmission queue {1, 3, 4} yields Good. -/
theorem acknowledgement_processing_spec_witness :
    (processAcknowledgements [exampleAckSubscription] [⟨1234, 3⟩]).2 = [.Good] :=
  ((acknowledgement_processing_spec.1 [exampleAckSubscription] exampleAckSubscription
      ⟨1234, 3⟩ (by decide)).1 (by decide)).1

/-- C3: a PublishRequest arriving while the queue holds
`maxPublishRequestInQueue` entries displaces the oldest queued request, which
is answered `ServiceFault{BadTooManyPublishRequests}` with the displaced
request's handle; the queue length never exceeds `maxPublishRequestInQueue`. -/
theorem queue_overflow_spec :
    (∀ (e : ServerSidePublishEngine) (req : PublishRequest) (now : Nat)
        (old : QueuedRequest) (restQ : List QueuedRequest),
        e.queue = old :: restQ →
        e.queue.length = e.maxPublishRequestInQueue →
        e.subscriptions.isEmpty = false →
        ((e.onPublishRequest req now).2).head?
          = some (.serviceFault .BadTooManyPublishRequests old.request.requestHandle)) ∧
    (∀ (e : ServerSidePublishEngine) (req : PublishRequest) (now : Nat),
        e.queue.length ≤ e.maxPublishRequestInQueue →
        1 ≤ e.maxPublishRequestInQueue →
        ((e.onPublishRequest req now).1).queue.length ≤ e.maxPublishRequestInQueue) := by
  constructor
  · intro e req now old restQ hq hlen hsubs
    rw [ServerSidePublishEngine.onPublishRequest]
    rw [if_neg (by simp [hsubs])]
    rw [show enqueuePublishRequest e.maxPublishRequestInQueue e.queue
          { request := req, arrivalTime := now }
        = (restQ ++ [{ request := req, arrivalTime := now }],
           [.serviceFault .BadTooManyPublishRequests old.request.requestHandle]) from by
      rw [enqueuePublishRequest.eq_def, if_pos hlen, hq]]
    simp
  · intro e req now hle hpos
    rw [ServerSidePublishEngine.onPublishRequest]
    by_cases hempty : (e.subscriptions.isEmpty && e.pendingClosedSubscriptions.isEmpty) = true
    · rw [if_pos hempty]
      exact hle
    · rw [if_neg hempty]
      simp only
      exact le_trans (latePass_queue_length _ _ _)
        (enqueuePublishRequest_length e.maxPublishRequestInQueue e.queue
          { request := req, arrivalTime := now } hle hpos)

/-- Closed witness for `queue_overflow_spec`: with `maxPublishRequestInQueue = 2`
and a full queue holding handles 1 and 2, a third request displaces handle 1. -/
theorem queue_overflow_spec_witness :
    (overflowEngine.onPublishRequest (emptyPublishRequest 3) 0).2.head?
      = some (.serviceFault .BadTooManyPublishRequests 1) :=
  queue_overflow_spec.1 overflowEngine (emptyPublishRequest 3) 0
    { request := emptyPublishRequest 1, arrivalTime := 0 }
    [{ request := emptyPublishRequest 2, arrivalTime := 0 }]
    (by decide) (by decide) (by decide)

/-- C10: a monitored-item notification arriving between ticks never produces a
response, never changes any subscription's state and leaves the queue
untouched; in the ZDZ-C scenario the data response is emitted only by the next
tick. -/
theorem notification_between_ticks_spec :
    (∀ (e : ServerSidePublishEngine) (sid : Nat),
        (e.simulateMonitoredItemNotification sid).2 = [] ∧
        ((e.simulateMonitoredItemNotification sid).1).subscriptions.map
            Subscription.state
          = e.subscriptions.map Subscription.state ∧
        ((e.simulateMonitoredItemNotification sid).1).queue = e.queue) ∧
    scenarioBetweenTicks.1 = [] ∧
    scenarioBetweenTicks.2.map Response.notificationDataOf
      = [some [.dataChange 1]] ∧
    scenarioBetweenTicks.2.map Response.summary = [(.Good, 1)] := by
  refine ⟨?_, by decide, by decide, by decide⟩
  intro e sid
  exact ⟨rfl, notify_map_state sid e.subscriptions, rfl⟩

theorem serveWithRequest_singleton (s : Subscription) (sid : Nat) (qr : QueuedRequest)
    (wantData : Bool) (hid : s.id = sid) :
    ∃ t resp, serveWithRequest [s] sid qr wantData = ([t], .publish resp) ∧
      t.id = s.id ∧
      t.state = (if wantData then .NORMAL else .KEEPALIVE) ∧
      t.publishIntervalCount = s.publishIntervalCount ∧
      (wantData = true → ∃ c, resp.notificationMessage.notificationData = [.dataChange c]) ∧
      (wantData = false → resp.notificationMessage.notificationData = []) ∧
      resp.serviceResult = .Good ∧ resp.requestHandle = qr.request.requestHandle ∧
      resp.subscriptionId = s.id := by
  obtain ⟨t0, ht0, hcore⟩ :=
    processAcknowledgements_singleton qr.request.subscriptionAcknowledgements s
  have hpair : processAcknowledgements [s] qr.request.subscriptionAcknowledgements
      = ([t0], (processAcknowledgements [s] qr.request.subscriptionAcknowledgements).2) := by
    conv_lhs => rw [← Prod.mk.eta
      (p := processAcknowledgements [s] qr.request.subscriptionAcknowledgements)]
    rw [ht0]
  have hfind : List.find? (fun t => t.id = sid) [t0] = some t0 := by
    simp [List.find?, hcore.1, hid]
  cases wantData with
  | false =>
      have hserve : serveWithRequest [s] sid qr false
          = ([(t0.sendKeepAliveResponse qr.request.requestHandle
                (processAcknowledgements [s] qr.request.subscriptionAcknowledgements).2).1],
             .publish (t0.sendKeepAliveResponse qr.request.requestHandle
                (processAcknowledgements [s] qr.request.subscriptionAcknowledgements).2).2) := by
        simp only [serveWithRequest]
        rw [hpair]
        simp [hfind, replaceSubscription, Subscription.sendKeepAliveResponse]
      refine ⟨_, _, hserve, ?_, ?_, ?_, ?_, ?_, ?_, ?_, ?_⟩ <;>
        simp [Subscription.sendKeepAliveResponse, hcore.1, hcore.2.2.2.2.1]
  | true =>
      have hserve : serveWithRequest [s] sid qr true
          = ([(t0.emitNotificationMessage qr.request.requestHandle
                (processAcknowledgements [s] qr.request.subscriptionAcknowledgements).2).1],
             .publish (t0.emitNotificationMessage qr.request.requestHandle
                (processAcknowledgements [s] qr.request.subscriptionAcknowledgements).2).2) := by
        simp only [serveWithRequest]
        rw [hpair]
        simp [hfind, replaceSubscription, Subscription.emitNotificationMessage]
      refine ⟨_, _, hserve, ?_, ?_, ?_, ?_, ?_, ?_, ?_, ?_⟩ <;>
        simp [Subscription.emitNotificationMessage, hcore.1, hcore.2.2.2.2.1]

theorem enqueuePublishRequest_nil (maxCount : Nat) (entry : QueuedRequest) :
    enqueuePublishRequest maxCount [] entry = ([entry], []) := by
  unfold enqueuePublishRequest
  split <;> rfl

/-- C5: a LATE subscription is served immediately when a new PublishRequest
arrives, bypassing the tick: after `onPublishRequest` the request has been
consumed (`pendingPublishRequestCount = 0`) and the subscription has left LATE,
to NORMAL when it had pending notifications and to KEEPALIVE when it had
none. -/
theorem late_subscription_served_spec :
    ∀ (e : ServerSidePublishEngine) (s : Subscription) (req : PublishRequest) (now : Nat),
      e.subscriptions = [s] → s.state = .LATE → s.publishingEnabled = true →
      e.queue = [] → e.pendingClosedSubscriptions = [] →
      ((e.onPublishRequest req now).1.pendingPublishRequestCount = 0 ∧
       (e.onPublishRequest req now).1.subscriptions.map Subscription.state
         = [if s.pendingNotifications = 0 then .KEEPALIVE else .NORMAL]) := by
  intro e s req now hsubs hstate hen hq hpc
  have hlate : findLateSorted [s] = [s] := by
    simp [findLateSorted, List.filter_cons, hstate, sortByAge, insertByAge]
  by_cases hp : s.pendingNotifications = 0
  · have hwant : s.hasPendingData = false := by
      simp [Subscription.hasPendingData, hen, hp]
    obtain ⟨t, resp, hserve, htid, htstate, htpic, hd1, hd2, hr1, hr2, hr3⟩ :=
      serveWithRequest_singleton s s.id { request := req, arrivalTime := now }
        s.hasPendingData rfl
    rw [hwant] at hserve htstate
    simp only [ServerSidePublishEngine.onPublishRequest, hsubs, hq, hpc,
      List.isEmpty_cons, Bool.false_and, enqueuePublishRequest_nil]
    rw [if_neg (by simp)]
    simp only [latePass, hlate, hwant, hserve]
    simp [ServerSidePublishEngine.pendingPublishRequestCount, htstate, hp]
  · have hwant : s.hasPendingData = true := by
      simp [Subscription.hasPendingData, hen, hp]
    obtain ⟨t, resp, hserve, htid, htstate, htpic, hd1, hd2, hr1, hr2, hr3⟩ :=
      serveWithRequest_singleton s s.id { request := req, arrivalTime := now }
        s.hasPendingData rfl
    rw [hwant] at hserve htstate
    simp only [ServerSidePublishEngine.onPublishRequest, hsubs, hq, hpc,
      List.isEmpty_cons, Bool.false_and, enqueuePublishRequest_nil]
    rw [if_neg (by simp)]
    simp only [latePass, hlate, hwant, hserve]
    simp [ServerSidePublishEngine.pendingPublishRequestCount, htstate, hp]

theorem processAcknowledgements_nil_subs :
    ∀ acks : List SubscriptionAcknowledgement,
      (processAcknowledgements [] acks).1 = [] := by
  intro acks
  induction acks with
  | nil => rfl
  | cons a rest ih =>
      unfold processAcknowledgements
      have hst : acknowledgementStatus [] a = .BadSubscriptionIdInvalid := rfl
      simp [hst, ih]

/-- C6: a newly added subscription (state CREATING) with a queued
PublishRequest produces exactly one response on its first tick: a keep-alive
(empty notificationData) moving to KEEPALIVE with `publishIntervalCount = 1`
when no notifications are ready, and a data NotificationMessage moving to
NORMAL when notifications are ready. -/
theorem first_tick_after_creation_spec :
    ∀ (e : ServerSidePublishEngine) (s : Subscription) (qr : QueuedRequest)
      (restQ : List QueuedRequest) (now : Nat),
      e.subscriptions = [s] → s.state = .CREATING → s.publishingEnabled = true →
      s.publishIntervalCount = 0 →
      e.queue = qr :: restQ → e.pendingClosedSubscriptions = [] →
      (∀ q ∈ e.queue, q.request.timeoutHint = 0) →
      ((e.tick now).2.length = 1 ∧
       (s.pendingNotifications = 0 →
          (e.tick now).1.subscriptions.map Subscription.state = [.KEEPALIVE] ∧
          (e.tick now).1.subscriptions.map Subscription.publishIntervalCount = [1] ∧
          (e.tick now).2.map Response.notificationDataOf = [some []]) ∧
       (s.pendingNotifications ≠ 0 →
          (e.tick now).1.subscriptions.map Subscription.state = [.NORMAL] ∧
          ∃ c, (e.tick now).2.map Response.notificationDataOf = [some [.dataChange c]])) := by
  intro e s qr restQ now hsubs hstate hen hpic hq hpc hth
  have hscan : timeoutScan now restQ = (restQ, []) := by
    refine timeoutScan_no_hint now restQ ?_
    intro x hx
    exact hth x (by rw [hq]; exact List.mem_cons_of_mem qr hx)
  obtain ⟨sid, spint, smka, sltc0, smnp, sen, sst, spic, skac, sltc, snsq, ssent, spend⟩ := s
  dsimp only at hstate hen hpic ⊢
  subst hstate
  subst hen
  subst hpic
  have hfind : List.find? (fun t => t.id = sid)
      [(⟨sid, spint, smka, sltc0, smnp, true, .CREATING, 0, skac, sltc, snsq, ssent,
       spend⟩ : Subscription)]
      = some ⟨sid, spint, smka, sltc0, smnp, true, .CREATING, 0, skac, sltc, snsq, ssent,
       spend⟩ := by
    simp [List.find?]
  by_cases hp : spend = 0
  · subst hp
    obtain ⟨t, resp, hserve, htid, htstate, htpic, hd1, hd2, hr1, hr2, hr3⟩ :=
      serveWithRequest_singleton
        ⟨sid, spint, smka, sltc0, smnp, true, .CREATING, 1, skac, sltc, snsq, ssent, 0⟩
        sid qr false rfl
    simp only [ServerSidePublishEngine.tick, hsubs, hq, hpc, List.map_cons, List.map_nil,
      tickAll, tickSubscription, hfind, replaceSubscription, hscan, Nat.zero_add,
      Subscription.hasPendingData]
    simp only [show ((true && (0 : Nat) != 0) : Bool) = false from rfl,
      eq_self_iff_true, if_true]
    rw [hserve]
    refine ⟨by simp, fun _ => ?_, fun hc => absurd rfl hc⟩
    simp [htstate, htpic, hd2 rfl, Response.notificationDataOf, hscan]
  · obtain ⟨t, resp, hserve, htid, htstate, htpic, hd1, hd2, hr1, hr2, hr3⟩ :=
      serveWithRequest_singleton
        ⟨sid, spint, smka, sltc0, smnp, true, .CREATING, 1, skac, sltc, snsq, ssent, spend⟩
        sid qr true rfl
    have hwant : ((true && (spend != 0)) : Bool) = true := by
      simp [hp]
    simp only [ServerSidePublishEngine.tick, hsubs, hq, hpc, List.map_cons, List.map_nil,
      tickAll, tickSubscription, hfind, replaceSubscription, hscan, Nat.zero_add,
      Subscription.hasPendingData]
    simp only [hwant, eq_self_iff_true, if_true]
    rw [hserve]
    obtain ⟨c, hc⟩ := hd1 rfl
    refine ⟨by simp, fun hc0 => absurd hc0 hp, fun _ => ?_⟩
    exact ⟨by simp [htstate], c, by simp [hc, Response.notificationDataOf, hscan]⟩

/-- C4: a subscription that enters CLOSED by lifetime expiry is placed on the
pendingClosedSubscriptions list (count becomes 1); the next PublishRequest is
consumed immediately and answered with a PublishResponse whose single
NotificationData is a StatusChangeNotification with status BadTimeout and
`subscriptionId` equal to the closed subscription's id, after which
`pendingClosedSubscriptionCount` is 0 and the subscription is discarded. -/
theorem closed_by_lifetime_spec :
    ∀ (e : ServerSidePublishEngine) (s : Subscription) (req : PublishRequest)
      (now later : Nat),
      e.subscriptions = [s] → s.state = .LATE → s.lifeTimeCounter = 1 →
      e.queue = [] → e.pendingClosedSubscriptions = [] →
      ((e.tick now).1.pendingClosedSubscriptionCount = 1 ∧
       (e.tick now).1.subscriptions = [] ∧
       (∃ r, ((e.tick now).1.onPublishRequest req later).2 = [.publish r] ∧
          r.subscriptionId = s.id ∧
          r.notificationMessage.notificationData = [.statusChange .BadTimeout] ∧
          r.serviceResult = .Good ∧ r.requestHandle = req.requestHandle) ∧
       ((e.tick now).1.onPublishRequest req later).1.pendingClosedSubscriptionCount = 0 ∧
       ((e.tick now).1.onPublishRequest req later).1.queue = []) := by
  intro e s req now later hsubs hstate hltc hq hpc
  have hfind : List.find? (fun t => t.id = s.id) [s] = some s := by
    simp [List.find?]
  have hfilter : List.filter (fun t => t.id ≠ s.id) [s] = [] := by
    simp [List.filter_cons]
  have hack : (processAcknowledgements [] req.subscriptionAcknowledgements)
      = ([], (processAcknowledgements [] req.subscriptionAcknowledgements).2) := by
    conv_lhs => rw [← Prod.mk.eta
      (p := processAcknowledgements [] req.subscriptionAcknowledgements)]
    rw [processAcknowledgements_nil_subs]
  simp only [ServerSidePublishEngine.tick, hsubs, hq, hpc, List.map_cons, List.map_nil,
    tickAll, tickSubscription, hfind, hstate, hltc, hfilter, timeoutScan]
  simp only [ServerSidePublishEngine.onPublishRequest, List.isEmpty_nil,
    List.isEmpty_cons, Bool.and_false, enqueuePublishRequest_nil, latePass, hack]
  simp [ServerSidePublishEngine.pendingClosedSubscriptionCount]


/-- Closed witness for `late_subscription_served_spec`: the starved LATE
subscription of ZDZ-G consumes the arriving request at once. -/
theorem late_subscription_served_spec_witness :
    (lateServedEngine.onPublishRequest (emptyPublishRequest 1) 0).1.pendingPublishRequestCount
      = 0 :=
  (late_subscription_served_spec lateServedEngine lateServedSubscription
    (emptyPublishRequest 1) 0 rfl rfl rfl rfl rfl).1

/-- Closed witness for `first_tick_after_creation_spec`: the ZDZ-B engine emits
exactly one response on the first tick. -/
theorem first_tick_after_creation_spec_witness :
    (creatingEngine.tick 1000).2.length = 1 :=
  (first_tick_after_creation_spec creatingEngine exampleSubscription
    { request := emptyPublishRequest 1, arrivalTime := 0 } [] 1000
    rfl rfl rfl rfl rfl rfl (by decide)).1

/-- Closed witness for `closed_by_lifetime_spec`: the ZDZ-I engine holds one
pending closed subscription after the closing tick. -/
theorem closed_by_lifetime_spec_witness :
    (lateExpiringEngine.tick 1000).1.pendingClosedSubscriptionCount = 1 :=
  (closed_by_lifetime_spec lateExpiringEngine lateExpiringSubscription
    (emptyPublishRequest 9) 1000 2000 rfl rfl rfl rfl rfl).1

end OpcUa
